import Mathlib

/-!
Verification of the CourseArchitectAI slide-audit core against its
natural-language specification.

The Python sources are embedded shallowly:

* `audit_slide/utils.py` — colour math (relative luminance, WCAG contrast
  ratio, the iterative compliant-colour search).  Floating-point arithmetic
  is modelled over `ℝ`; the gamma exponent `** 2.4` becomes `Real.rpow`.
* `modules/audit_slide/analyzer.py` — the Gagné classifier, the pacing
  state machine (`_calculate_cadence_metrics`), background resolution
  (`_determine_real_background`) and the compliance score of
  `run_analysis`.  The regular expressions used there are embedded as
  explicit scanners over `List Char` with Python's leftmost-match and
  backtracking behaviour reproduced for exactly the patterns the code uses.
* `audit_slide/time_estimator.py` — explicit-time header extraction.
* `modules/audit_slide/qa_tool.py` — the alternative WCAG rate.
* `modules/audit_slide/ai_engine.py` — exemption filtering and batch-result
  merging of `analyze_batch`; the LLM calls themselves are external and
  enter the model only through their (already stringly, never-throwing)
  results.

Python `str.lower` is modelled on the ASCII range, which covers every
pattern constant appearing in the sources.
-/

/-! ## ColorMath (`audit_slide/utils.py`)  -/

/-- An RGB colour, each channel `0..255`, as the Python `(r, g, b)` tuple. -/
abbrev RGB := ℕ × ℕ × ℕ

/-- `linearize_rgb` from `utils.py`: sRGB channel linearisation. -/
noncomputable def linearize_rgb (v : ℝ) : ℝ :=
  if v ≤ 0.03928 then v / 12.92 else ((v + 0.055) / 1.055) ^ (2.4 : ℝ)

/-- `get_relative_luminance` from `utils.py`. -/
noncomputable def get_relative_luminance (rgb : RGB) : ℝ :=
  0.2126 * linearize_rgb ((rgb.1 : ℝ) / 255) +
    0.7152 * linearize_rgb ((rgb.2.1 : ℝ) / 255) +
    0.0722 * linearize_rgb ((rgb.2.2 : ℝ) / 255)

/-- `calculate_contrast_ratio` from `utils.py`:
`(max(L1,L2)+0.05) / (min(L1,L2)+0.05)`. -/
noncomputable def calculate_contrast_ratio (rgb1 rgb2 : RGB) : ℝ :=
  (max (get_relative_luminance rgb1) (get_relative_luminance rgb2) + 0.05) /
    (min (get_relative_luminance rgb1) (get_relative_luminance rgb2) + 0.05)

/-- Clamp `max(0, min(255, z))` back to a channel value. -/
def clampByte (z : ℤ) : ℕ := (max 0 (min 255 z)).toNat

/-- `adjust_color_brightness` from `utils.py`.  Python's `int(r * factor)`
truncates toward zero; every product here is nonnegative, so `⌊·⌋` agrees
with it. -/
noncomputable def adjust_color_brightness (rgb : RGB) (factor : ℝ) : RGB :=
  (clampByte ⌊(rgb.1 : ℝ) * factor⌋, clampByte ⌊(rgb.2.1 : ℝ) * factor⌋,
    clampByte ⌊(rgb.2.2 : ℝ) * factor⌋)

/-- The `for _ in range(max_iter)` loop of `find_closest_compliant_color`:
adjust, return on success, return pure black / white at the boundary,
otherwise recurse with one unit of fuel less.  `none` means the loop
exhausted its iterations. -/
noncomputable def fcccLoop (bg_rgb : RGB) (required : ℝ) (step : ℝ) (darken : Bool) :
    ℕ → RGB → Option RGB
  | 0, _ => none
  | n + 1, cur =>
    let candidate := adjust_color_brightness cur step
    if required ≤ calculate_contrast_ratio candidate bg_rgb then some candidate
    else if darken = true ∧ candidate.1 + candidate.2.1 + candidate.2.2 = 0 then
      some (0, 0, 0)
    else if darken = false ∧ 765 ≤ candidate.1 + candidate.2.1 + candidate.2.2 then
      some (255, 255, 255)
    else fcccLoop bg_rgb required step darken n candidate

/-- `find_closest_compliant_color` from `utils.py`: return the input when it
already passes; otherwise darken (background brighter than text) or lighten
by 5% per step for at most 50 iterations, falling back to pure black or
white chosen from the background luminance. -/
noncomputable def find_closest_compliant_color (fg_rgb bg_rgb : RGB) (required : ℝ) : RGB :=
  if required ≤ calculate_contrast_ratio fg_rgb bg_rgb then fg_rgb
  else
    match
      fcccLoop bg_rgb required
        (if get_relative_luminance fg_rgb < get_relative_luminance bg_rgb then
          (0.95 : ℝ) else 1.05)
        (decide (get_relative_luminance fg_rgb < get_relative_luminance bg_rgb))
        50 fg_rgb with
    | some c => c
    | none =>
      if 0.5 < get_relative_luminance bg_rgb then (0, 0, 0) else (255, 255, 255)

lemma fcccLoop_sound (bg_rgb : RGB) (required step : ℝ) (darken : Bool) :
    ∀ (n : ℕ) (cur c : RGB), fcccLoop bg_rgb required step darken n cur = some c →
      required ≤ calculate_contrast_ratio c bg_rgb ∨ c = (0, 0, 0) ∨ c = (255, 255, 255) := by
  intro n
  induction n with
  | zero => intro cur c h; simp [fcccLoop] at h
  | succ n ih =>
    intro cur c h
    rw [fcccLoop] at h
    split_ifs at h with h1 h2 h3
    · exact Or.inl (Option.some_injective _ h ▸ h1)
    · exact Or.inr (Or.inl (Option.some_injective _ h).symm)
    · exact Or.inr (Or.inr (Option.some_injective _ h).symm)
    · exact ih _ _ h

lemma linearize_rgb_zero : linearize_rgb 0 = 0 := by
  unfold linearize_rgb
  rw [if_pos (by norm_num)]
  norm_num

lemma linearize_rgb_one : linearize_rgb 1 = 1 := by
  unfold linearize_rgb
  rw [if_neg (by norm_num), show ((1 : ℝ) + 0.055) / 1.055 = 1 by norm_num,
    Real.one_rpow]

lemma lum_pure_black : get_relative_luminance (0, 0, 0) = 0 := by
  have h0 : ((0 : ℕ) : ℝ) / 255 = 0 := by norm_num
  unfold get_relative_luminance
  rw [show (((0, 0, 0) : RGB).1 : ℝ) = ((0 : ℕ) : ℝ) from rfl]
  rw [h0, linearize_rgb_zero]
  ring

lemma lum_pure_white : get_relative_luminance (255, 255, 255) = 1 := by
  have h1 : ((255 : ℕ) : ℝ) / 255 = 1 := by norm_num
  unfold get_relative_luminance
  rw [show (((255, 255, 255) : RGB).1 : ℝ) = ((255 : ℕ) : ℝ) from rfl]
  rw [h1, linearize_rgb_one]
  ring

lemma contrast_black_on_white :
    calculate_contrast_ratio (0, 0, 0) (255, 255, 255) = 21 := by
  unfold calculate_contrast_ratio
  rw [lum_pure_black, lum_pure_white]
  norm_num

/-- Claim C1: for every foreground, background and required ratio
`target ≤ 21`, `find_closest_compliant_color` returns a colour meeting
`target` against the background, or pure black `(0,0,0)`, or pure white
`(255,255,255)` — the 5%-per-step search either stops at the first
compliant step or falls back to pure black/white. -/
theorem findCompliantColor_compliant_or_extreme (fg_rgb bg_rgb : RGB) (target : ℝ)
    (h : target ≤ 21) :
    target ≤ calculate_contrast_ratio (find_closest_compliant_color fg_rgb bg_rgb target) bg_rgb ∨
      find_closest_compliant_color fg_rgb bg_rgb target = (0, 0, 0) ∨
      find_closest_compliant_color fg_rgb bg_rgb target = (255, 255, 255) := by
  by_cases h0 : target ≤ calculate_contrast_ratio fg_rgb bg_rgb
  · rw [find_closest_compliant_color, if_pos h0]
    exact Or.inl h0
  · rw [find_closest_compliant_color, if_neg h0]
    rcases hm : fcccLoop bg_rgb target
        (if get_relative_luminance fg_rgb < get_relative_luminance bg_rgb then
          (0.95 : ℝ) else 1.05)
        (decide (get_relative_luminance fg_rgb < get_relative_luminance bg_rgb))
        50 fg_rgb with _ | c
    · simp only [hm]
      split_ifs with hb
      · exact Or.inr (Or.inl rfl)
      · exact Or.inr (Or.inr rfl)
    · simp only [hm]
      exact fcccLoop_sound _ _ _ _ _ _ _ hm

/-- Witness for C1 at `fg = black`, `bg = white`, `target = 4.5`. -/
theorem findCompliantColor_compliant_or_extreme_witness :
    (4.5 : ℝ) ≤ 21 ∧
      ((4.5 : ℝ) ≤
          calculate_contrast_ratio
            (find_closest_compliant_color (0, 0, 0) (255, 255, 255) 4.5) (255, 255, 255) ∨
        find_closest_compliant_color (0, 0, 0) (255, 255, 255) 4.5 = (0, 0, 0) ∨
        find_closest_compliant_color (0, 0, 0) (255, 255, 255) 4.5 = (255, 255, 255)) :=
  ⟨by norm_num,
    findCompliantColor_compliant_or_extreme (0, 0, 0) (255, 255, 255) 4.5 (by norm_num)⟩

/-- Claim C7: the contrast ratio is symmetric in its two colours, and equals
`(max(L1,L2)+0.05) / (min(L1,L2)+0.05)` over the relative luminances. -/
theorem contrastRatio_symm_and_formula (a b : RGB) :
    calculate_contrast_ratio a b = calculate_contrast_ratio b a ∧
      calculate_contrast_ratio a b =
        (max (get_relative_luminance a) (get_relative_luminance b) + 0.05) /
          (min (get_relative_luminance a) (get_relative_luminance b) + 0.05) := by
  constructor
  · unfold calculate_contrast_ratio
    rw [max_comm, min_comm]
  · rfl

/-- Claim C10: when the foreground already meets the required ratio against
the background, `find_closest_compliant_color` returns it unchanged. -/
theorem findCompliantColor_id_on_compliant (fg_rgb bg_rgb : RGB) (required : ℝ)
    (h : required ≤ calculate_contrast_ratio fg_rgb bg_rgb) :
    find_closest_compliant_color fg_rgb bg_rgb required = fg_rgb := by
  unfold find_closest_compliant_color
  rw [if_pos h]

/-- Witness for C10: black on white already exceeds 4.5:1 and is returned
unchanged. -/
theorem findCompliantColor_id_on_compliant_witness :
    (4.5 : ℝ) ≤ calculate_contrast_ratio (0, 0, 0) (255, 255, 255) ∧
      find_closest_compliant_color (0, 0, 0) (255, 255, 255) 4.5 = (0, 0, 0) :=
  ⟨by rw [contrast_black_on_white]; norm_num,
    findCompliantColor_id_on_compliant (0, 0, 0) (255, 255, 255) 4.5
      (by rw [contrast_black_on_white]; norm_num)⟩

/-! ## Character-level scanners

The analyzer's regular expressions are simple enough (literal words joined
by `\s*` or `\s+`, alternations whose branches start with distinct letters,
digit runs, optional pieces) that their Python ``re`` semantics can be
reproduced by direct scanners over `List Char`.  Wherever greedy matching
with backtracking could in principle differ from the maximal-munch scanners
below, the pattern's follow-set makes the two coincide; this is noted at
each definition. -/

/-- ASCII lowercasing; Python's `str.lower` restricted to the range the
audit patterns use. -/
def asciiLower (c : Char) : Char :=
  if 'A' ≤ c ∧ c ≤ 'Z' then Char.ofNat (c.toNat + 32) else c

/-- Lowercased character list of a string (`text.lower()`). -/
def lowerStr (s : String) : List Char := s.data.map asciiLower

/-- Python's `\s` class (ASCII part). -/
def pyIsSpace (c : Char) : Bool :=
  c = ' ' || c = '\t' || c = '\n' || c = '\r' || c = '\x0b' || c = '\x0c'

/-- Match a literal pattern at the start, returning the rest of the input. -/
def matchLit : List Char → List Char → Option (List Char)
  | [], s => some s
  | _ :: _, [] => none
  | p :: ps, c :: s => if p = c then matchLit ps s else none

/-- `\s*` — drop a maximal run of whitespace. -/
def skipWs (s : List Char) : List Char := s.dropWhile pyIsSpace

/-- `\s+` — at least one whitespace character, then a maximal run. -/
def skipWs1 : List Char → Option (List Char)
  | [] => none
  | c :: t => if pyIsSpace c then some (skipWs t) else none

/-- Match literal words joined by `\s*` at the start of the input.  Each
word in every pattern below starts with a non-space character, so taking
the maximal whitespace run agrees with the regex engine's backtracking. -/
def matchSeq : List (List Char) → List Char → Option (List Char)
  | [], s => some s
  | [p], s => matchLit p s
  | p :: ps, s =>
    match matchLit p s with
    | some r => matchSeq ps (skipWs r)
    | none => none

/-- Does `p` hold of some suffix of the input?  (`re.search` position scan:
positions are tried left to right.) -/
def anySuffix (p : List Char → Bool) : List Char → Bool
  | [] => p []
  | c :: t => p (c :: t) || anySuffix p t

/-- `re.search` of an alternation of `\s*`-joined word sequences. -/
def containsWords (alts : List (List String)) (s : List Char) : Bool :=
  alts.any fun a => anySuffix (fun t => (matchSeq (a.map String.data) t).isSome) s

/-- Leftmost `re.search` returning the first position's parse result. -/
def searchFirst {α : Type} (f : List Char → Option α) : List Char → Option α
  | [] => f []
  | c :: t =>
    match f (c :: t) with
    | some v => some v
    | none => searchFirst f t

/-- Python `line.strip()` with the `\s` class above. -/
def pyStrip (s : List Char) : List Char :=
  ((s.dropWhile pyIsSpace).reverse.dropWhile pyIsSpace).reverse

/-- Python `text.split('\n')` (keeps empty pieces, `"" ↦ [""]`). -/
def splitNl : List Char → List (List Char)
  | [] => [[]]
  | c :: t =>
    if c = '\n' then [] :: splitNl t
    else
      match splitNl t with
      | [] => [[c]]
      | l :: ls => (c :: l) :: ls

/-! ## GagnéClassifier (`modules/audit_slide/analyzer.py`, `_map_gagne_event`) -/

/-- Title scan `knowledge\s*check|quiz|test|assessment|exam` (input already
lowercased). -/
def titleAssessMatch (t : List Char) : Bool :=
  containsWords [["knowledge", "check"], ["quiz"], ["test"], ["assessment"], ["exam"]] t

/-- `_check_event_keywords`: any of the nine full event names, with `\s*`
between the two words, somewhere in the lowercased line. -/
def checkEventKeywords (line : List Char) : Bool :=
  containsWords
    [["gain", "attention"], ["inform", "objectives"], ["stimulate", "recall"],
      ["present", "content"], ["provide", "guidance"], ["elicit", "performance"],
      ["provide", "feedback"], ["assess", "performance"], ["enhance", "retention"]]
    (line.map asciiLower)

/-- After the alternation `(?:activity|gagne\s*event)` the header regex
requires `\s*:`. -/
def colonAfterWs (s : List Char) : Bool := (matchLit [':'] (skipWs s)).isSome

/-- `(?:activity|gagne\s*event)\s*:` at the start of (already lowercased)
input.  The two branches start with distinct letters, so no backtracking
between them can occur. -/
def strictHeaderCore (s : List Char) : Bool :=
  (match matchLit "activity".data s with
    | some r => colonAfterWs r
    | none => false) ||
  (match matchSeq ["gagne".data, "event".data] s with
    | some r => colonAfterWs r
    | none => false)

/-- `re.match(r'(?:instructional\s+)?(?:activity|gagne\s*event)\s*:', line,
re.IGNORECASE)`: the optional `instructional\s+` prefix is tried first,
then dropped, exactly as the greedy `?` backtracks. -/
def strictHeaderMatch (line : List Char) : Bool :=
  let s := line.map asciiLower
  (match matchLit "instructional".data s with
    | some r =>
      match skipWs1 r with
      | some r2 => strictHeaderCore r2
      | none => false
    | none => false) ||
  strictHeaderCore s

/-- The nine keyword→event searches run over the chosen (lowercased)
`analysis_text`, appending event names in the source's order. -/
def keywordEvents (t : List Char) : List String :=
  (if containsWords [["gain", "attention"], ["hook"], ["ice", "breaker"],
      ["warm", "up"], ["welcome"]] t then ["Gain Attention"] else []) ++
  (if containsWords [["inform", "objectives"], ["objective"], ["outcome"], ["goal"],
      ["agenda"], ["direction"], ["overview"], ["roadmap"]] t then
    ["Inform Objectives"] else []) ++
  (if containsWords [["stimulate", "recall"], ["recall"], ["review"],
      ["prior", "knowledge"], ["refresh"], ["remind"]] t then
    ["Stimulate Recall"] else []) ++
  (if containsWords [["present", "content"], ["presentation"], ["lecture"], ["explain"],
      ["demonstrate"], ["show"], ["teach"], ["concept"]] t then
    ["Present Content"] else []) ++
  (if containsWords [["provide", "guidance"], ["guidance"], ["guided", "learning"],
      ["scaffold"], ["support"], ["coach"], ["help"], ["tip"]] t then
    ["Provide Guidance"] else []) ++
  (if containsWords [["elicit", "performance"], ["practice"], ["group", "activity"],
      ["learner", "activity"], ["exercise"], ["simulation"], ["role", "play"],
      ["hands", "on"], ["worksheet"]] t then ["Elicit Performance"] else []) ++
  (if containsWords [["provide", "feedback"], ["feedback"], ["debrief"],
      ["review", "answer"], ["correct"], ["discussion"]] t then
    ["Provide Feedback"] else []) ++
  (if containsWords [["assess", "performance"], ["assessment"], ["quiz"], ["test"],
      ["check"], ["knowledge", "check"], ["evaluate"]] t then
    ["Assess Performance"] else []) ++
  (if containsWords [["enhance", "retention"], ["retention"], ["transfer"],
      ["wrap", "up"], ["summary"], ["conclusion"], ["close"], ["job", "aid"],
      ["takeaway"]] t then ["Enhance Retention"] else [])

/-- The `target_line` selection of `_map_gagne_event`: the first line with a
strict header, else the first short line (<100 chars, stripped length >3)
containing an event keyword, else empty.  The chosen line is lowercased. -/
def gagneTargetLine (text : String) : List Char :=
  let lines := splitNl text.data
  match lines.find? (fun l => strictHeaderMatch l) with
  | some l => l.map asciiLower
  | none =>
    match lines.find? (fun l =>
        decide (l.length < 100) && decide (3 < (pyStrip l).length) &&
          checkEventKeywords l) with
    | some l => l.map asciiLower
    | none => []

/-- `_map_gagne_event(text, slide_title)`.  Python's final
`list(set(events))` has unspecified order; membership-preserving `dedup` is
the canonical choice here. -/
def map_gagne_event (text title : String) : List String :=
  let events :=
    (if titleAssessMatch (lowerStr title) = true then ["Assess Performance"] else []) ++
      (if gagneTargetLine text ≠ [] then keywordEvents (gagneTargetLine text) else [])
  if events = [] then [] else events.dedup

/-- Claim C6: a slide title matching the quiz/assessment title scan always
contributes "Assess Performance" to the Gagné classification, whatever the
notes-based classification yields. -/
theorem gagne_title_always_assess (text title : String)
    (h : titleAssessMatch (lowerStr title) = true) :
    "Assess Performance" ∈ map_gagne_event text title := by
  unfold map_gagne_event
  rw [if_pos h]
  have hne : ("Assess Performance" :: (if gagneTargetLine text ≠ [] then
      keywordEvents (gagneTargetLine text) else [])) ≠ [] := by simp
  rw [show (["Assess Performance"] ++ (if gagneTargetLine text ≠ [] then
      keywordEvents (gagneTargetLine text) else [])) =
      ("Assess Performance" :: (if gagneTargetLine text ≠ [] then
      keywordEvents (gagneTargetLine text) else [])) from rfl]
  rw [if_neg (by simpa using hne)]
  rw [List.mem_dedup]
  exact List.mem_cons_self _ _

/-- Witness for C6: title "Knowledge Check" with notes that classify as
"Present Content". -/
theorem gagne_title_always_assess_witness :
    titleAssessMatch (lowerStr "Knowledge Check") = true ∧
      "Assess Performance" ∈
        map_gagne_event "Instructional Activity: Present Content" "Knowledge Check" :=
  ⟨by decide, gagne_title_always_assess _ _ (by decide)⟩

/-! ## PacingEngine time parsing (`audit_slide/time_estimator.py`) -/

/-- Decimal value of a digit run. -/
def digitsToNat (ds : List Char) : ℕ :=
  ds.foldl (fun a c => a * 10 + (c.toNat - 48)) 0

/-- `float(val)` for a regex capture shaped `\d+(\.\d+)?`. -/
def parseFloatQ (s : List Char) : ℚ :=
  let ip := s.takeWhile Char.isDigit
  match s.drop ip.length with
  | '.' :: fs => (digitsToNat ip : ℚ) + (digitsToNat fs : ℚ) / (10 : ℚ) ^ fs.length
  | _ => (digitsToNat ip : ℚ)

/-- Round half to even (Python's `round`), at integer precision. -/
def roundHalfEven (q : ℚ) : ℤ :=
  if q - ⌊q⌋ < 1 / 2 then ⌊q⌋
  else if 1 / 2 < q - ⌊q⌋ then ⌊q⌋ + 1
  else if ⌊q⌋ % 2 = 0 then ⌊q⌋ else ⌊q⌋ + 1

/-- Python's `round(x, 1)`, modelled exactly over `ℚ`. -/
def pyRound1 (q : ℚ) : ℚ := (roundHalfEven (q * 10) : ℚ) / 10

/-- One backtracking attempt of `\s*([^\n]+)`: with `k` whitespace
characters consumed, the capture is the maximal newline-free run. -/
def capKAt (rest : List Char) (k : ℕ) : Option (List Char) :=
  match rest.drop k with
  | [] => none
  | c :: t => if c = '\n' then none else some ((c :: t).takeWhile (fun x => x ≠ '\n'))

/-- Greedy `\s*` backtracks from the longest whitespace run down to zero. -/
def capBacktrack (rest : List Char) : ℕ → Option (List Char)
  | 0 => capKAt rest 0
  | k + 1 =>
    match capKAt rest (k + 1) with
    | some v => some v
    | none => capBacktrack rest k

/-- The `\s*([^\n]+)` tail shared by the time-header and activity regexes
(`.` does not match a newline, while `\s*` does). -/
def wsStarCapture (rest : List Char) : Option (List Char) :=
  capBacktrack rest (rest.takeWhile pyIsSpace).length

/-- `Est\.? Time` with the greedy optional dot tried first. -/
def estTimeMatch (s : List Char) : Option (List Char) :=
  match matchLit "est".data s with
  | none => none
  | some r =>
    match (match matchLit ".".data r with
        | some r2 => matchLit " time".data r2
        | none => none) with
    | some r3 => some r3
    | none => matchLit " time".data r

/-- `(?:Time|Duration|Est\.? Time)` on lowercased input; the branches begin
with distinct letters, so alternation order cannot matter beyond it. -/
def timeAltMatch (s : List Char) : Option (List Char) :=
  match matchLit "time".data s with
  | some r => some r
  | none =>
    match matchLit "duration".data s with
    | some r => some r
    | none => estTimeMatch s

/-- The header body after the optional prefix: alternation, `:`, then the
captured `\s*(.+)` value. -/
def headerCore (s : List Char) : Option (List Char) :=
  match timeAltMatch s with
  | some r =>
    match matchLit [':'] r with
    | some r2 => wsStarCapture r2
    | none => none
  | none => none

/-- `(?:Instructional )?…` at one position: the greedy optional literal
prefix is tried first, then retried without. -/
def headerAt (s : List Char) : Option (List Char) :=
  match matchLit "instructional ".data s with
  | some r =>
    match headerCore r with
    | some v => some v
    | none => headerCore s
  | none => headerCore s

/-- `re.search(self.header_pattern, notes_text)` with the captured group
lowercased (the `(?i)` flag is modelled by lowercasing the whole input,
which commutes with this ASCII pattern). -/
def searchTimeHeader (notes_text : String) : Option (List Char) :=
  searchFirst headerAt (lowerStr notes_text)

/-- `(\d+):(\d{2})` at one position; on success the code returns
`parts[0] + parts[1] / 60` immediately. -/
def colonAt (s : List Char) : Option ℚ :=
  let ds := s.takeWhile Char.isDigit
  if ds.isEmpty then none
  else
    match s.drop ds.length with
    | ':' :: d1 :: d2 :: _ =>
      if d1.isDigit && d2.isDigit then
        some ((digitsToNat ds : ℚ) + (digitsToNat [d1, d2] : ℚ) / 60)
      else none
    | _ => none

/-- Greedy optional single character (`s?`). -/
def optCh (c : Char) (s : List Char) : List Char :=
  match s with
  | x :: t => if x = c then t else s
  | [] => s

def isWordChar (c : Char) : Bool := c.isAlpha || c.isDigit || c = '_'

/-- `\b` right after a word character: the next character must not be a
word character. -/
def wordBoundaryAfter : List Char → Bool
  | [] => true
  | c :: _ => !isWordChar c

/-- `(?:hours?|hrs?)`. -/
def hoursUnit (s : List Char) : Option (List Char) :=
  match matchLit "hour".data s with
  | some r => some (optCh 's' r)
  | none =>
    match matchLit "hr".data s with
    | some r => some (optCh 's' r)
    | none => none

/-- `(?:minutes?|mins?|m\b)`. -/
def minutesUnit (s : List Char) : Option (List Char) :=
  match matchLit "minute".data s with
  | some r => some (optCh 's' r)
  | none =>
    match matchLit "min".data s with
    | some r => some (optCh 's' r)
    | none =>
      match matchLit "m".data s with
      | some r => if wordBoundaryAfter r then some r else none
      | none => none

/-- `(?:seconds?|secs?|s\b)`. -/
def secondsUnit (s : List Char) : Option (List Char) :=
  match matchLit "second".data s with
  | some r => some (optCh 's' r)
  | none =>
    match matchLit "sec".data s with
    | some r => some (optCh 's' r)
    | none =>
      match matchLit "s".data s with
      | some r => if wordBoundaryAfter r then some r else none
      | none => none

/-- `(\d+(?:\.\d+)?)\s*UNIT` at one position: the greedy fractional part is
tried first and dropped if the unit then fails; a shorter digit run can
never rescue a failed unit (the next character would be a digit), so no
further backtracking is needed.  Returns the captured number and the rest
of the input after the unit. -/
def numUnitAt (unit : List Char → Option (List Char)) (s : List Char) :
    Option (List Char × List Char) :=
  let ds := s.takeWhile Char.isDigit
  if ds.isEmpty then none
  else
    let r1 := s.drop ds.length
    let withFrac : Option (List Char × List Char) :=
      match r1 with
      | '.' :: r2 =>
        let fs := r2.takeWhile Char.isDigit
        if fs.isEmpty then none
        else
          match unit (skipWs (r2.drop fs.length)) with
          | some rest => some (ds ++ '.' :: fs, rest)
          | none => none
      | _ => none
    match withFrac with
    | some v => some v
    | none =>
      match unit (skipWs r1) with
      | some rest => some (ds, rest)
      | none => none

/-- `re.findall`: scan left to right, consuming each non-overlapping match,
otherwise advancing one character.  Fuel is the input length (every
recursive call strictly shortens the input). -/
def findallGo (unit : List Char → Option (List Char)) : ℕ → List Char → List (List Char)
  | 0, _ => []
  | fuel + 1, s =>
    match numUnitAt unit s with
    | some (v, rest) => v :: findallGo unit fuel rest
    | none =>
      match s with
      | [] => []
      | _ :: t => findallGo unit fuel t

def findallNum (unit : List Char → Option (List Char)) (s : List Char) :
    List (List Char) :=
  findallGo unit s.length s

def hoursFindall (raw : List Char) : List (List Char) := findallNum hoursUnit raw

def minutesFindall (raw : List Char) : List (List Char) := findallNum minutesUnit raw

def secondsFindall (raw : List Char) : List (List Char) := findallNum secondsUnit raw

/-- `TimeEstimator._parse_duration_string`: a `H:MM` token returns
immediately; otherwise the three unit parsers' finds are summed (hours ×60,
minutes ×1, seconds ×1/60) and rounded to one decimal. -/
def parseDurationString (raw : List Char) : ℚ :=
  match searchFirst colonAt raw with
  | some v => v
  | none =>
    pyRound1 (((hoursFindall raw).map (fun v => parseFloatQ v * 60)).sum +
      ((minutesFindall raw).map (fun v => parseFloatQ v * 1)).sum +
      ((secondsFindall raw).map (fun v => parseFloatQ v * (1 / 60))).sum)

/-- `TimeEstimator.extract_explicit_time`. -/
def extract_explicit_time (notes_text : String) : ℚ :=
  if notes_text = "" then 0
  else
    match searchTimeHeader notes_text with
    | some raw => parseDurationString raw
    | none => 0

lemma parseFloatQ_nonneg (s : List Char) : 0 ≤ parseFloatQ s := by
  simp only [parseFloatQ]
  split
  · positivity
  · positivity

lemma colonAt_nonneg (s : List Char) (v : ℚ) (h : colonAt s = some v) : 0 ≤ v := by
  simp only [colonAt] at h
  split_ifs at h
  split at h
  · split_ifs at h
    rcases Option.some_injective _ h with rfl
    positivity
  · exact absurd h (by simp)

lemma searchFirst_nonneg (f : List Char → Option ℚ)
    (hf : ∀ s v, f s = some v → 0 ≤ v) :
    ∀ s v, searchFirst f s = some v → 0 ≤ v := by
  intro s
  induction s with
  | nil => intro v h; exact hf [] v (by simpa [searchFirst] using h)
  | cons c t ih =>
    intro v h
    rw [searchFirst] at h
    rcases hc : f (c :: t) with _ | w
    · rw [hc] at h
      exact ih v h
    · rw [hc] at h
      exact hf _ v (hc.trans (congrArg some (Option.some_injective _ h)))

lemma roundHalfEven_nonneg (q : ℚ) (h : 0 ≤ q) : 0 ≤ roundHalfEven q := by
  have hf : (0 : ℤ) ≤ ⌊q⌋ := Int.floor_nonneg.mpr h
  unfold roundHalfEven
  split_ifs <;> omega

lemma pyRound1_nonneg (q : ℚ) (h : 0 ≤ q) : 0 ≤ pyRound1 q := by
  unfold pyRound1
  have := roundHalfEven_nonneg (q * 10) (by positivity)
  have h10 : (0 : ℚ) ≤ (roundHalfEven (q * 10) : ℚ) := by exact_mod_cast this
  positivity

lemma unitSum_nonneg (l : List (List Char)) (m : ℚ) (hm : 0 ≤ m) :
    0 ≤ (l.map (fun v => parseFloatQ v * m)).sum := by
  apply List.sum_nonneg
  intro x hx
  rcases List.mem_map.mp hx with ⟨v, _, rfl⟩
  exact mul_nonneg (parseFloatQ_nonneg v) hm

lemma parseDurationString_nonneg (raw : List Char) : 0 ≤ parseDurationString raw := by
  unfold parseDurationString
  rcases hc : searchFirst colonAt raw with _ | v
  · apply pyRound1_nonneg
    have h1 := unitSum_nonneg (hoursFindall raw) 60 (by norm_num)
    have h2 := unitSum_nonneg (minutesFindall raw) 1 (by norm_num)
    have h3 := unitSum_nonneg (secondsFindall raw) (1 / 60) (by norm_num)
    linarith
  · exact searchFirst_nonneg colonAt colonAt_nonneg raw v hc

/-- Claim C8: explicit-time extraction is total and defensive — for every
notes string the result is a nonnegative number of minutes; with no
`Time:`/`Duration:` header it is 0; and with a header whose value contains
no `H:MM` token and no parseable hour/minute/second unit it is 0. -/
theorem extractExplicitTime_defensive (notes_text : String) :
    0 ≤ extract_explicit_time notes_text ∧
      (searchTimeHeader notes_text = none → extract_explicit_time notes_text = 0) ∧
      (∀ raw, searchTimeHeader notes_text = some raw →
        searchFirst colonAt raw = none →
        hoursFindall raw = [] → minutesFindall raw = [] → secondsFindall raw = [] →
        extract_explicit_time notes_text = 0) := by
  refine ⟨?_, ?_, ?_⟩
  · unfold extract_explicit_time
    split_ifs
    · exact le_refl 0
    · rcases hh : searchTimeHeader notes_text with _ | raw
      · exact le_refl 0
      · exact parseDurationString_nonneg raw
  · intro h
    unfold extract_explicit_time
    split_ifs
    · rfl
    · rw [h]
  · intro raw hraw hcolon hh hm hs
    unfold extract_explicit_time
    split_ifs
    · rfl
    · simp only [hraw, parseDurationString, hcolon, hh, hm, hs]
      norm_num [pyRound1, roundHalfEven]

/-- Witness for C8: a header with an unparseable value yields 0; a parseable
one is nonnegative. -/
theorem extractExplicitTime_defensive_witness :
    searchTimeHeader "Time: soon" = some "soon".data ∧
      extract_explicit_time "Time: soon" = 0 ∧
      0 ≤ extract_explicit_time "Time: 90 mins" :=
  ⟨by decide,
    (extractExplicitTime_defensive "Time: soon").2.2 "soon".data (by decide) (by decide)
      (by decide) (by decide) (by decide),
    (extractExplicitTime_defensive "Time: 90 mins").1⟩

/-! ## PacingEngine state machine
(`modules/audit_slide/analyzer.py`, `_calculate_cadence_metrics`) -/

/-- Substring search for a literal. -/
def containsLit (pat : String) (s : List Char) : Bool :=
  anySuffix (fun t => (matchLit pat.data t).isSome) s

/-- `\d+` — at least one digit, maximal run, returning the rest. -/
def digits1 (s : List Char) : Option (List Char) :=
  if (s.takeWhile Char.isDigit).isEmpty then none
  else some (s.drop (s.takeWhile Char.isDigit).length)

/-- `re.match(r'\d+\.\d+\.\d+', title)` — a numbered-heading prefix.  After
a maximal digit run the next character is not a digit, so greedy `\d+`
needs no backtracking before the literal dot. -/
def numberedHeadingMatch (title : List Char) : Bool :=
  match digits1 title with
  | some r1 =>
    match matchLit ".".data r1 with
    | some r2 =>
      match digits1 r2 with
      | some r3 =>
        match matchLit ".".data r3 with
        | some r4 => (digits1 r4).isSome
        | none => false
      | none => false
    | none => false
  | none => false

/-- `(?:time|duration):\s*(\d+)` at one position (input lowercased): only
the maximal `\s*` run can be followed by a digit. -/
def timeDigitsAt (s : List Char) : Option ℕ :=
  match (match matchLit "time:".data s with
      | some r => some r
      | none => matchLit "duration:".data s) with
  | some r =>
    if ((skipWs r).takeWhile Char.isDigit).isEmpty then none
    else some (digitsToNat ((skipWs r).takeWhile Char.isDigit))
  | none => none

/-- The pacing loop's explicit time: `int(group(1))` of the first
`time:`/`duration:` match in the lowercased notes, else 0. -/
def extractCadenceTime (notes : String) : ℕ :=
  match searchFirst timeDigitsAt (lowerStr notes) with
  | some n => n
  | none => 0

/-- `activity:\s*([^\n]+)` at one position (input lowercased). -/
def activityAt (s : List Char) : Option (List Char) :=
  match matchLit "activity:".data s with
  | some r => wsStarCapture r
  | none => none

/-- The pacing loop's activity label: `group(1).strip().lower()` of the
first `activity:` match in the lowercased notes, else `""` (the input is
already lowercased, so the final `.lower()` is the identity). -/
def extractCadenceActivity (notes : String) : String :=
  match searchFirst activityAt (lowerStr notes) with
  | some cap => String.mk (pyStrip cap)
  | none => ""

/-- `len(x.split())`: the number of maximal non-whitespace runs. -/
def countWordsGo : List Char → Bool → ℕ
  | [], _ => 0
  | c :: t, inw =>
    if pyIsSpace c then countWordsGo t false
    else (if inw then 0 else 1) + countWordsGo t true

def pyWordCount (s : List Char) : ℕ := countWordsGo s false

/-- One slide of the per-run `slide_content_map`. -/
structure SlideContent where
  slide_number : ℕ
  title : String
  full_text : String
  notes : String
  layout : String
deriving DecidableEq

/-- Section-boundary detection: layout name containing
section/agenda/divider, or a `\d+\.\d+\.\d+` title prefix. -/
def isSectionBreak (sl : SlideContent) : Bool :=
  containsLit "section" (lowerStr sl.layout) || containsLit "agenda" (lowerStr sl.layout) ||
    containsLit "divider" (lowerStr sl.layout) || numberedHeadingMatch sl.title.data

/-- One section accumulator (`current_section`). -/
structure SectionAcc where
  name : String
  planned : ℚ
  estimated : ℚ
  projected : ℚ
  slide_count : ℕ

/-- The mutable state threaded through `_calculate_cadence_metrics`:
funded-activity token, running totals, section list and accumulator, and
the Gagné metrics maps. -/
structure PacingState where
  activeFunded : String
  totalPlanned : ℚ
  totalProjected : ℚ
  sections : List SectionAcc
  currentSection : SectionAcc
  gagneCounts : String → ℕ
  gagneTime : String → ℚ

/-- Section-boundary handling: reset the funded activity, flush a nonempty
current section, and open a new one named from the title (or the slide
number when the title is empty). -/
def applySectionBreak (st : PacingState) (sl : SlideContent) : PacingState :=
  if isSectionBreak sl then
    { st with
      activeFunded := ""
      sections :=
        if 0 < st.currentSection.slide_count then st.sections ++ [st.currentSection]
        else st.sections
      currentSection :=
        { name := if sl.title ≠ "" then sl.title else "Section " ++ toString sl.slide_number
          planned := 0, estimated := 0, projected := 0, slide_count := 0 } }
  else st

/-- `is_interactive`: any detected event among Provide Guidance / Elicit
Performance / Assess Performance. -/
def slideInteractive (sl : SlideContent) : Bool :=
  (map_gagne_event sl.notes sl.title).any fun ev =>
    ev = "Provide Guidance" || ev = "Elicit Performance" || ev = "Assess Performance"

/-- `word_count = len((notes + " " + full_text).split())` with `full_text`
lowercased at the top of the loop body. -/
def cadenceWordCount (sl : SlideContent) : ℕ :=
  pyWordCount (sl.notes.data ++ ' ' :: lowerStr sl.full_text)

/-- The slide-time / funded-token computation of the loop body, given the
carried `active_funded_activity`:
explicit time funds its activity; a repeated funded activity costs 0;
otherwise the word-count estimate (floored at 0.5, and at the activity
buffer for interactive labelled slides) is used and the funding clears. -/
def cadenceTimeFunded (buffer : ℚ) (funded : String) (sl : SlideContent) : ℚ × String :=
  if 0 < extractCadenceTime sl.notes then
    ((extractCadenceTime sl.notes : ℚ), extractCadenceActivity sl.notes)
  else if extractCadenceActivity sl.notes ≠ "" ∧ extractCadenceActivity sl.notes = funded then
    (0, funded)
  else
    (if slideInteractive sl = true ∧ extractCadenceActivity sl.notes ≠ "" ∧ 0 < buffer then
      max (max (1 / 2 : ℚ) ((cadenceWordCount sl : ℚ) / 130)) buffer
    else max (1 / 2 : ℚ) ((cadenceWordCount sl : ℚ) / 130), "")

/-- The fixed weight table of the Gagné time split. -/
def gagneWeight (ev : String) : ℚ :=
  if ev = "Elicit Performance" ∨ ev = "Assess Performance" then 10
  else if ev = "Present Content" ∨ ev = "Provide Feedback" then 3
  else 1

def bumpCount (f : String → ℕ) (k : String) : String → ℕ :=
  fun x => if x = k then f x + 1 else f x

def bumpTime (f : String → ℚ) (k : String) (v : ℚ) : String → ℚ :=
  fun x => if x = k then f x + v else f x

/-- One iteration of the per-event loop distributing `slide_time`. -/
def gagneBump (total slideTime : ℚ) (acc : PacingState) (ev : String) : PacingState :=
  { acc with
    gagneCounts := bumpCount acc.gagneCounts ev
    gagneTime := bumpTime acc.gagneTime ev (gagneWeight ev / total * slideTime) }

/-- Gagné metric accumulation: weighted split over the detected events, or
an "Other" count when none were detected. -/
def applyGagne (events : List String) (slideTime : ℚ) (st : PacingState) : PacingState :=
  if events ≠ [] then
    events.foldl (gagneBump ((events.map gagneWeight).sum) slideTime) st
  else { st with gagneCounts := bumpCount st.gagneCounts "Other" }

/-- The whole loop body of `_calculate_cadence_metrics` for one slide. -/
def cadenceStep (buffer : ℚ) (st : PacingState) (sl : SlideContent) : PacingState :=
  let st1 := applySectionBreak st sl
  let tf := cadenceTimeFunded buffer st1.activeFunded sl
  applyGagne (map_gagne_event sl.notes sl.title) tf.1
    { st1 with
      activeFunded := tf.2
      totalPlanned := st1.totalPlanned + (extractCadenceTime sl.notes : ℚ)
      totalProjected := st1.totalProjected + tf.1
      currentSection :=
        { st1.currentSection with
          slide_count := st1.currentSection.slide_count + 1
          projected := st1.currentSection.projected + tf.1
          planned := st1.currentSection.planned + (extractCadenceTime sl.notes : ℚ) } }

/-- The state `_calculate_cadence_metrics` resets to before iterating. -/
def initPacingState : PacingState :=
  { activeFunded := ""
    totalPlanned := 0
    totalProjected := 0
    sections := []
    currentSection :=
      { name := "Introduction", planned := 0, estimated := 0, projected := 0, slide_count := 0 }
    gagneCounts := fun _ => 0
    gagneTime := fun _ => 0 }

/-- `_calculate_cadence_metrics`: fold the loop body over the slide list
and flush the last open section. -/
def calculateCadenceMetrics (buffer : ℚ) (slides : List SlideContent) : PacingState :=
  let final := slides.foldl (cadenceStep buffer) initPacingState
  if 0 < final.currentSection.slide_count then
    { final with sections := final.sections ++ [final.currentSection] }
  else final

lemma gagneFold_activeFunded (total t : ℚ) :
    ∀ (l : List String) (st : PacingState),
      (l.foldl (gagneBump total t) st).activeFunded = st.activeFunded := by
  intro l
  induction l with
  | nil => intro st; rfl
  | cons e tl ih => intro st; rw [List.foldl_cons, ih]; rfl

lemma gagneFold_totalProjected (total t : ℚ) :
    ∀ (l : List String) (st : PacingState),
      (l.foldl (gagneBump total t) st).totalProjected = st.totalProjected := by
  intro l
  induction l with
  | nil => intro st; rfl
  | cons e tl ih => intro st; rw [List.foldl_cons, ih]; rfl

lemma gagneFold_currentSection (total t : ℚ) :
    ∀ (l : List String) (st : PacingState),
      (l.foldl (gagneBump total t) st).currentSection = st.currentSection := by
  intro l
  induction l with
  | nil => intro st; rfl
  | cons e tl ih => intro st; rw [List.foldl_cons, ih]; rfl

lemma applyGagne_activeFunded (events : List String) (t : ℚ) (st : PacingState) :
    (applyGagne events t st).activeFunded = st.activeFunded := by
  unfold applyGagne
  split_ifs
  · exact gagneFold_activeFunded _ _ _ _
  · rfl

lemma applyGagne_totalProjected (events : List String) (t : ℚ) (st : PacingState) :
    (applyGagne events t st).totalProjected = st.totalProjected := by
  unfold applyGagne
  split_ifs
  · exact gagneFold_totalProjected _ _ _ _
  · rfl

lemma applyGagne_currentSection (events : List String) (t : ℚ) (st : PacingState) :
    (applyGagne events t st).currentSection = st.currentSection := by
  unfold applyGagne
  split_ifs
  · exact gagneFold_currentSection _ _ _ _
  · rfl

lemma cadenceStep_totalProjected (buffer : ℚ) (st : PacingState) (sl : SlideContent) :
    (cadenceStep buffer st sl).totalProjected =
      (applySectionBreak st sl).totalProjected +
        (cadenceTimeFunded buffer (applySectionBreak st sl).activeFunded sl).1 := by
  unfold cadenceStep
  rw [applyGagne_totalProjected]

lemma cadenceStep_sectionProjected (buffer : ℚ) (st : PacingState) (sl : SlideContent) :
    (cadenceStep buffer st sl).currentSection.projected =
      (applySectionBreak st sl).currentSection.projected +
        (cadenceTimeFunded buffer (applySectionBreak st sl).activeFunded sl).1 := by
  unfold cadenceStep
  rw [applyGagne_currentSection]

lemma cadenceStep_activeFunded (buffer : ℚ) (st : PacingState) (sl : SlideContent) :
    (cadenceStep buffer st sl).activeFunded =
      (cadenceTimeFunded buffer (applySectionBreak st sl).activeFunded sl).2 := by
  unfold cadenceStep
  rw [applyGagne_activeFunded]

/-- Claim C2: funded-activity suppression — after a slide whose notes carry
an explicit time and a nonempty activity label, a following non-boundary
slide with the same activity label and no explicit time adds 0 projected
minutes to both the running total and the current section. -/
theorem pacing_funded_activity_suppression (buffer : ℚ) (st : PacingState)
    (s1 s2 : SlideContent) (a : String)
    (h2brk : isSectionBreak s2 = false)
    (h1t : 0 < extractCadenceTime s1.notes)
    (h1a : extractCadenceActivity s1.notes = a)
    (ha : a ≠ "")
    (h2t : extractCadenceTime s2.notes = 0)
    (h2a : extractCadenceActivity s2.notes = a) :
    (cadenceStep buffer (cadenceStep buffer st s1) s2).totalProjected =
        (cadenceStep buffer st s1).totalProjected ∧
      (cadenceStep buffer (cadenceStep buffer st s1) s2).currentSection.projected =
        (cadenceStep buffer st s1).currentSection.projected := by
  have hfund : (cadenceStep buffer st s1).activeFunded = a := by
    rw [cadenceStep_activeFunded]
    unfold cadenceTimeFunded
    rw [if_pos h1t]
    exact h1a
  have hbreak : applySectionBreak (cadenceStep buffer st s1) s2 = cadenceStep buffer st s1 := by
    unfold applySectionBreak
    rw [h2brk]
    simp
  have htf :
      (cadenceTimeFunded buffer (cadenceStep buffer st s1).activeFunded s2).1 = 0 := by
    unfold cadenceTimeFunded
    rw [if_neg (by simp [h2t])]
    rw [if_pos ⟨by rw [h2a]; exact ha, by rw [h2a, hfund]⟩]
  constructor
  · rw [cadenceStep_totalProjected, hbreak, htf, add_zero]
  · rw [cadenceStep_sectionProjected, hbreak, htf, add_zero]

/-- Witness for C2: `"Activity: lab\nTime: 10"` then `"Activity: lab"`. -/
theorem pacing_funded_activity_suppression_witness :
    isSectionBreak ⟨2, "", "", "Activity: lab", "Content"⟩ = false ∧
      0 < extractCadenceTime "Activity: lab\nTime: 10" ∧
      extractCadenceActivity "Activity: lab\nTime: 10" = "lab" ∧
      extractCadenceActivity "Activity: lab" = "lab" ∧
      ((cadenceStep 5 (cadenceStep 5 initPacingState
            ⟨1, "", "", "Activity: lab\nTime: 10", "Content"⟩)
          ⟨2, "", "", "Activity: lab", "Content"⟩).totalProjected =
        (cadenceStep 5 initPacingState
            ⟨1, "", "", "Activity: lab\nTime: 10", "Content"⟩).totalProjected ∧
      (cadenceStep 5 (cadenceStep 5 initPacingState
            ⟨1, "", "", "Activity: lab\nTime: 10", "Content"⟩)
          ⟨2, "", "", "Activity: lab", "Content"⟩).currentSection.projected =
        (cadenceStep 5 initPacingState
            ⟨1, "", "", "Activity: lab\nTime: 10", "Content"⟩).currentSection.projected) :=
  ⟨by decide, by decide, by decide, by decide,
    pacing_funded_activity_suppression 5 initPacingState
      ⟨1, "", "", "Activity: lab\nTime: 10", "Content"⟩
      ⟨2, "", "", "Activity: lab", "Content"⟩ "lab"
      (by decide) (by decide) (by decide) (by decide) (by decide) (by decide)⟩

/-- Claim C3: a slide with no explicit time, not covered by the carried
funded activity, and non-interactive classification contributes exactly
`max(0.5, wordCount / 130)` projected minutes, with `wordCount` counting
the words of notes plus on-screen text. -/
theorem pacing_implicit_time_estimate (buffer : ℚ) (st : PacingState) (sl : SlideContent)
    (hbrk : isSectionBreak sl = false)
    (ht : extractCadenceTime sl.notes = 0)
    (hact : extractCadenceActivity sl.notes = "" ∨
      extractCadenceActivity sl.notes ≠ st.activeFunded)
    (hint : slideInteractive sl = false) :
    (cadenceStep buffer st sl).totalProjected =
      st.totalProjected + max (1 / 2 : ℚ) ((cadenceWordCount sl : ℚ) / 130) := by
  have hbreak : applySectionBreak st sl = st := by
    unfold applySectionBreak
    rw [hbrk]
    simp
  have htf : (cadenceTimeFunded buffer st.activeFunded sl).1 =
      max (1 / 2 : ℚ) ((cadenceWordCount sl : ℚ) / 130) := by
    unfold cadenceTimeFunded
    rw [if_neg (by simp [ht])]
    rw [if_neg (by
      rcases hact with h | h
      · simp [h]
      · intro hc; exact h hc.2)]
    have hpair :
        ((if slideInteractive sl = true ∧ extractCadenceActivity sl.notes ≠ "" ∧ 0 < buffer
          then max (max (1 / 2 : ℚ) ((cadenceWordCount sl : ℚ) / 130)) buffer
          else max (1 / 2 : ℚ) ((cadenceWordCount sl : ℚ) / 130)), "").1 =
        (if slideInteractive sl = true ∧ extractCadenceActivity sl.notes ≠ "" ∧ 0 < buffer
          then max (max (1 / 2 : ℚ) ((cadenceWordCount sl : ℚ) / 130)) buffer
          else max (1 / 2 : ℚ) ((cadenceWordCount sl : ℚ) / 130)) := rfl
    rw [hpair, if_neg (by simp [hint])]
  rw [cadenceStep_totalProjected, hbreak, htf]

/-- Witness for C3: an empty-notes, non-interactive slide with three
on-screen words yields `max(0.5, 3/130) = 0.5` minutes. -/
theorem pacing_implicit_time_estimate_witness :
    isSectionBreak ⟨2, "Intro", "alpha beta gamma", "", "Content"⟩ = false ∧
      extractCadenceTime "" = 0 ∧
      slideInteractive ⟨2, "Intro", "alpha beta gamma", "", "Content"⟩ = false ∧
      (cadenceStep 5 initPacingState
          ⟨2, "Intro", "alpha beta gamma", "", "Content"⟩).totalProjected =
        initPacingState.totalProjected +
          max (1 / 2 : ℚ)
            ((cadenceWordCount ⟨2, "Intro", "alpha beta gamma", "", "Content"⟩ : ℚ) / 130) :=
  ⟨by decide, by decide, by decide,
    pacing_implicit_time_estimate 5 initPacingState
      ⟨2, "Intro", "alpha beta gamma", "", "Content"⟩
      (by decide) (by decide) (Or.inl (by decide)) (by decide)⟩

/-! ## BackgroundResolver
(`_determine_real_background`, identical in both analyzer versions;
`shapes_overlap` from `audit_slide/utils.py`) -/

/-- A shape's fill as the resolver can observe it.  `solid` carries the
colour when `.fore_color.rgb` is readable (`none` models the
`AttributeError` of a theme colour), the optional alpha, and `.visible`.
`fillErr` models an `AttributeError` on the `.fill` access itself. -/
inductive FillKind
  | noFill
  | solid (rgb : Option RGB) (alpha : Option ℚ) (visible : Bool)
  | picture
  | texture
  | fillErr
deriving DecidableEq

/-- The geometry, z-relevant identity and fill of one shape. -/
structure PShape where
  shape_id : ℕ
  left : ℤ
  top : ℤ
  width : ℤ
  height : ℤ
  isTable : Bool
  fill : FillKind
deriving DecidableEq

/-- The resolver's result: a colour, or the `BG_IS_IMAGE` / `BG_IS_TABLE`
sentinel.  White is `color (255, 255, 255)`. -/
inductive BgResult
  | color (c : RGB)
  | image
  | table
deriving DecidableEq

/-- `shapes_overlap` from `utils.py`: axis-aligned bounding-box
intersection. -/
def shapes_overlap (s1 s2 : PShape) : Bool :=
  decide (s1.left < s2.left + s2.width) && decide (s1.left + s1.width > s2.left) &&
    decide (s1.top < s2.top + s2.height) && decide (s1.top + s1.height > s2.top)

/-- The target shape's own fill check: an opaque visible solid fill with a
readable colour resolves immediately; picture/texture fills resolve to the
IMAGE sentinel; everything else (including exceptions and translucent
solids) falls through to the z-order scan. -/
def ownFillResult (s : PShape) : Option BgResult :=
  match s.fill with
  | .solid rgb? alpha visible =>
    if visible = true then
      if alpha = none ∨ alpha = some 1 then
        match rgb? with
        | some c => some (.color c)
        | none => none
      else none
    else none
  | .picture => some .image
  | .texture => some .image
  | _ => none

/-- A scan candidate's determinable fill: tables give the TABLE sentinel
first; then an opaque solid fill with readable colour; then picture/texture
as IMAGE; exceptions and the rest give nothing (the loop keeps its previous
`best_bg_color`). -/
def candFillResult (s : PShape) : Option BgResult :=
  if s.isTable then some .table
  else
    match s.fill with
    | .solid rgb? alpha _ =>
      if alpha = none ∨ alpha = some 1 then
        match rgb? with
        | some c => some (.color c)
        | none => none
      else none
    | .picture => some .image
    | .texture => some .image
    | _ => none

/-- One iteration of the scan over shapes earlier in z-order: an
overlapping candidate (not the target itself) with a determinable fill
overwrites `best_bg_color`.  Every `bg_color` value is Python-truthy, so
`if bg_color:` is `isSome`. -/
def bgScanStep (target : PShape) (acc : Option BgResult) (c : PShape) : Option BgResult :=
  if (shapes_overlap target c && !(c.shape_id == target.shape_id)) = true then
    match candFillResult c with
    | some r => some r
    | none => acc
  else acc

/-- `_determine_real_background(target_shp, slide)`: the target's own fill,
else the last overwrite of the scan over the shapes strictly before the
target's (first) index, else white.  An absent target gives
`target_index = -1` in Python, scanning nothing, as does `.getD 0` here. -/
def determine_real_background (target : PShape) (shapes : List PShape) : BgResult :=
  match ownFillResult target with
  | some r => r
  | none =>
    match
      (shapes.take ((shapes.findIdx? (fun s => s.shape_id == target.shape_id)).getD 0)).foldl
        (bgScanStep target) none with
    | some r => r
    | none => .color (255, 255, 255)

/-- The overlapping earlier shapes with a determinable fill, in z-order. -/
def bgCandidates (target : PShape) (shapes : List PShape) : List BgResult :=
  ((shapes.take ((shapes.findIdx? (fun s => s.shape_id == target.shape_id)).getD 0)).filter
      (fun c => shapes_overlap target c && !(c.shape_id == target.shape_id))).filterMap
    candFillResult

lemma getLast?_cons_or {α : Type} (L : List α) (r : α) (acc : Option α) :
    ((r :: L).getLast?).or acc = L.getLast?.or (some r) := by
  cases L with
  | nil => rfl
  | cons x xs =>
    rw [List.getLast?_cons_cons]
    have hs : ((x :: xs).getLast?).isSome := by
      rw [List.getLast?_isSome]
      simp
    rcases Option.isSome_iff_exists.mp hs with ⟨y, hy⟩
    rw [hy]
    rfl

lemma bgScan_foldl (target : PShape) :
    ∀ (l : List PShape) (acc : Option BgResult),
      l.foldl (bgScanStep target) acc =
        ((l.filter (fun c => shapes_overlap target c &&
            !(c.shape_id == target.shape_id))).filterMap candFillResult).getLast?.or acc := by
  intro l
  induction l with
  | nil => intro acc; rfl
  | cons c t ih =>
    intro acc
    rw [List.foldl_cons, ih, List.filter_cons]
    by_cases hp : (shapes_overlap target c && !(c.shape_id == target.shape_id)) = true
    · rw [if_pos hp]
      rcases hg : candFillResult c with _ | r
      · simp only [List.filterMap_cons, hg]
        have hstep : bgScanStep target acc c = acc := by
          unfold bgScanStep
          rw [if_pos hp, hg]
        rw [hstep]
      · simp only [List.filterMap_cons, hg]
        have hstep : bgScanStep target acc c = some r := by
          unfold bgScanStep
          rw [if_pos hp, hg]
        rw [hstep, getLast?_cons_or]
    · rw [if_neg hp]
      have hstep : bgScanStep target acc c = acc := by
        unfold bgScanStep
        rw [if_neg hp]
      rw [hstep]

/-- Claim C4: for a shape without its own resolvable fill, the background
resolves to the last (topmost) determinable fill among the earlier
overlapping shapes — TABLE sentinel for tables, IMAGE for picture/texture
fills, the colour for opaque solids — and to white `(255,255,255)` when no
such shape exists. -/
theorem background_last_overlapping_wins (target : PShape) (shapes : List PShape)
    (hown : ownFillResult target = none) :
    determine_real_background target shapes =
      (bgCandidates target shapes).getLast?.getD (.color (255, 255, 255)) := by
  unfold determine_real_background
  simp only [hown]
  rw [bgScan_foldl, Option.or_none]
  unfold bgCandidates
  rcases hL : (((shapes.take ((shapes.findIdx? (fun s =>
      s.shape_id == target.shape_id)).getD 0)).filter
      (fun c => shapes_overlap target c &&
        !(c.shape_id == target.shape_id))).filterMap candFillResult).getLast? with _ | r <;>
    simp [hL]

/-- Witness for C4: a fill-less text shape fully covered by an opaque solid
shape below it resolves to that shape's colour. -/
theorem background_last_overlapping_wins_witness :
    ownFillResult ⟨2, 10, 10, 20, 20, false, .noFill⟩ = none ∧
      determine_real_background ⟨2, 10, 10, 20, 20, false, .noFill⟩
          [⟨1, 0, 0, 100, 100, false, .solid (some (10, 20, 30)) none true⟩,
            ⟨2, 10, 10, 20, 20, false, .noFill⟩] =
        (bgCandidates ⟨2, 10, 10, 20, 20, false, .noFill⟩
            [⟨1, 0, 0, 100, 100, false, .solid (some (10, 20, 30)) none true⟩,
              ⟨2, 10, 10, 20, 20, false, .noFill⟩]).getLast?.getD (.color (255, 255, 255)) ∧
      determine_real_background ⟨2, 10, 10, 20, 20, false, .noFill⟩
          [⟨1, 0, 0, 100, 100, false, .solid (some (10, 20, 30)) none true⟩,
            ⟨2, 10, 10, 20, 20, false, .noFill⟩] = .color (10, 20, 30) :=
  ⟨by decide,
    background_last_overlapping_wins _ _ (by decide),
    by decide⟩

/-! ## Compliance score (`modules/audit_slide/analyzer.py` `run_analysis`,
and the variant in `modules/audit_slide/qa_tool.py` `run_audit_slide`) -/

/-- One report entry, reduced to the fields the two scores read. -/
structure Issue where
  slide : ℕ
  check : String
  result : String
deriving DecidableEq

/-- `set(i['slide'] for i in clean_report if i.get('result') == 'FAIL')`,
as a deduplicated list. -/
def failSlides (issues : List Issue) : List ℕ :=
  ((issues.filter fun i => i.result == "FAIL").map fun i => i.slide).dedup

/-- The score computed at the end of `run_analysis`:
`round(((checked - len(fails)) / checked) * 100, 1)`, 100.0 for an empty
run. -/
def wcag_compliance_rate (issues : List Issue) (total_slides_checked : ℕ) : ℚ :=
  if 0 < total_slides_checked then
    pyRound1 ((((total_slides_checked : ℚ) - ((failSlides issues).length : ℚ)) /
      (total_slides_checked : ℚ)) * 100)
  else 100

/-- The `qa_tool.py` variant: only FAIL issues whose check name contains
"WCAG" mark a slide as failing. -/
def qaToolWcagRate (issues : List Issue) (total : ℕ) : ℚ :=
  if 0 < total then
    (((total : ℚ) -
        ((((issues.filter fun i => containsLit "WCAG" i.check.data && (i.result == "FAIL"))).map
          fun i => i.slide).dedup.length : ℚ)) / (total : ℚ)) * 100
  else 100

lemma failSlides_length_card (issues : List Issue) :
    (failSlides issues).length = (failSlides issues).toFinset.card := by
  rw [List.card_toFinset]
  unfold failSlides
  rw [List.dedup_idem]

/-- Claim C5 (corrected): the claim's unrounded formula disagrees with both
implementations — `run_analysis` rounds to one decimal and `qa_tool` counts
only WCAG-check failures.  At three slides checked with one slide carrying
a single non-WCAG FAIL, the claim's formula gives `200/3` while the code
gives `66.7` and `100` respectively. -/
lemma pyRound1_two_hundred_thirds : pyRound1 (200 / 3 : ℚ) = 667 / 10 := by
  have hf : ⌊(200 / 3 * 10 : ℚ)⌋ = 666 := by
    rw [Int.floor_eq_iff]
    constructor <;> norm_num
  unfold pyRound1 roundHalfEven
  rw [hf]
  rw [if_neg (by norm_num), if_pos (by norm_num)]
  norm_num

theorem wcagScore_formula_counterexample :
    wcag_compliance_rate [⟨1, "Font Rules", "FAIL"⟩] 3 ≠ (((3 : ℚ) - 1) / 3) * 100 ∧
      qaToolWcagRate [⟨1, "Font Rules", "FAIL"⟩] 3 ≠ (((3 : ℚ) - 1) / 3) * 100 := by
  constructor
  · have h1 : failSlides [⟨1, "Font Rules", "FAIL"⟩] = [1] := by decide
    unfold wcag_compliance_rate
    rw [if_pos (by norm_num), h1]
    rw [show ((((3 : ℕ) : ℚ)) - (([1] : List ℕ).length : ℚ)) / (((3 : ℕ) : ℚ)) * 100 =
      200 / 3 by push_cast; norm_num]
    rw [pyRound1_two_hundred_thirds]
    norm_num
  · have h3 : ([⟨1, "Font Rules", "FAIL"⟩] : List Issue).filter
        (fun i => containsLit "WCAG" i.check.data && (i.result == "FAIL")) = [] := by
      decide
    unfold qaToolWcagRate
    rw [if_pos (by norm_num), h3]
    simp only [List.map_nil, List.dedup_nil, List.length_nil]
    push_cast
    norm_num

/-- Claim C5 (amended): `run_analysis`'s score equals the slide-level pass
rate `(slidesChecked - slidesWithAnyFailSlide) / slidesChecked * 100`
rounded to one decimal, and it depends only on the set of slides that have
at least one FAIL issue — a slide with ten FAIL issues counts exactly as
one with a single FAIL, and the total issue count is irrelevant. -/
theorem wcagScore_slide_level_pass_rate (issues issues2 : List Issue)
    (total_slides_checked : ℕ) (hchk : 0 < total_slides_checked)
    (hset : (failSlides issues).toFinset = (failSlides issues2).toFinset) :
    wcag_compliance_rate issues total_slides_checked =
        pyRound1 ((((total_slides_checked : ℚ) -
          ((failSlides issues).toFinset.card : ℚ)) / (total_slides_checked : ℚ)) * 100) ∧
      wcag_compliance_rate issues total_slides_checked =
        wcag_compliance_rate issues2 total_slides_checked := by
  have hlen2 : (failSlides issues).length = (failSlides issues2).length := by
    rw [failSlides_length_card, failSlides_length_card, hset]
  constructor
  · unfold wcag_compliance_rate
    rw [if_pos hchk, failSlides_length_card]
  · unfold wcag_compliance_rate
    rw [if_pos hchk, if_pos hchk, hlen2]

/-- Witness for the amended C5: three FAIL issues on slide 1 score the same
as a single FAIL on slide 1, over two slides checked. -/
theorem wcagScore_slide_level_pass_rate_witness :
    (failSlides [⟨1, "WCAG Text Contrast", "FAIL"⟩, ⟨1, "Font Rules", "FAIL"⟩,
        ⟨1, "Brand Consistency", "FAIL"⟩, ⟨2, "Status", "EXEMPT"⟩]).toFinset =
        (failSlides [⟨1, "Font Rules", "FAIL"⟩]).toFinset ∧
      wcag_compliance_rate [⟨1, "WCAG Text Contrast", "FAIL"⟩, ⟨1, "Font Rules", "FAIL"⟩,
          ⟨1, "Brand Consistency", "FAIL"⟩, ⟨2, "Status", "EXEMPT"⟩] 2 =
        wcag_compliance_rate [⟨1, "Font Rules", "FAIL"⟩] 2 :=
  ⟨by decide,
    (wcagScore_slide_level_pass_rate
      [⟨1, "WCAG Text Contrast", "FAIL"⟩, ⟨1, "Font Rules", "FAIL"⟩,
        ⟨1, "Brand Consistency", "FAIL"⟩, ⟨2, "Status", "EXEMPT"⟩]
      [⟨1, "Font Rules", "FAIL"⟩] 2 (by decide) (by decide)).2⟩

/-! ## MultiAgentOrchestrator batch control flow
(`modules/audit_slide/ai_engine.py`, `analyze_batch` /
`_filter_exempt_slides`).  The three agent calls and the JSON decoding are
external; `execute_agent` already catches every exception and returns a
string, and `_clean_json` returns a parsed value or a fallback, so their
combined outcome enters the model as a `ParsedResponse`. -/

/-- A slide handed to the batch pipeline. -/
structure BatchSlide where
  slide_number : ℕ
  content : String
deriving DecidableEq

/-- A per-slide result; `slide_number` 0 models a response object missing
the key (`x.get('slide_number', 0)`). -/
structure BatchResult where
  slide_number : ℕ
  clarity_score : String
  tone_audit : String
deriving DecidableEq

/-- The exemption configuration read from `brand_config`. -/
structure BatchConfig where
  exempt_first_slide : Bool
  exempt_last_slide : Bool
  exempt_specific_slides : List ℕ
deriving DecidableEq

/-- The placeholder appended for an exempted slide. -/
def exemptPlaceholder (n : ℕ) : BatchResult :=
  ⟨n, "N/A", "Slide marked as Exempt in settings."⟩

/-- The exemption test of `_filter_exempt_slides`. -/
def isExemptSlide (cfg : BatchConfig) (total_slide_count : ℕ) (s : BatchSlide) : Bool :=
  (cfg.exempt_first_slide && s.slide_number == 1) ||
    (cfg.exempt_last_slide && decide (0 < total_slide_count) &&
      s.slide_number == total_slide_count) ||
    cfg.exempt_specific_slides.contains s.slide_number

/-- `_filter_exempt_slides`: split into active slides and exempt
placeholders, both in input order. -/
def filterExemptSlides (cfg : BatchConfig) (total_slide_count : ℕ) :
    List BatchSlide → List BatchSlide × List BatchResult
  | [] => ([], [])
  | s :: rest =>
    let (a, k) := filterExemptSlides cfg total_slide_count rest
    if isExemptSlide cfg total_slide_count s then (a, exemptPlaceholder s.slide_number :: k)
    else (s :: a, k)

/-- What `_clean_json(raw_response)` produced: a JSON list of result
objects, or anything else (dict fallback, unparseable text → `[]`), which
the `isinstance(ai_results, list)` guard discards. -/
inductive ParsedResponse
  | list (rs : List BatchResult)
  | notList
deriving DecidableEq

/-- The sort key comparison `x.get('slide_number', 0)`. -/
def resultLe (a b : BatchResult) : Bool := decide (a.slide_number ≤ b.slide_number)

/-- `AIEngine.analyze_batch` control flow: empty batch → `[]`; no active
slides → the placeholders as accumulated (no sort on this early return);
otherwise placeholders and parsed rewrite results merged and sorted by
slide number (Python's stable sort, here `mergeSort`). -/
def analyze_batch (cfg : BatchConfig) (slides_list : List BatchSlide)
    (total_slide_count : ℕ) (parsed : ParsedResponse) : List BatchResult :=
  if slides_list = [] then []
  else
    if (filterExemptSlides cfg total_slide_count slides_list).1 = [] then
      (filterExemptSlides cfg total_slide_count slides_list).2
    else
      ((filterExemptSlides cfg total_slide_count slides_list).2 ++
        (match parsed with
          | .list rs => rs
          | .notList => [])).mergeSort resultLe

/-- Claim C9 (counterexample): with every slide exempt, `analyze_batch`
returns the placeholders in input order without sorting — an out-of-order
all-exempt batch yields an unsorted result. -/
theorem analyzeBatch_all_exempt_unsorted :
    analyze_batch ⟨false, false, [1, 3]⟩ [⟨3, "c"⟩, ⟨1, "a"⟩] 0 (.list []) =
        [exemptPlaceholder 3, exemptPlaceholder 1] ∧
      ¬ List.Pairwise (fun a b : BatchResult => a.slide_number ≤ b.slide_number)
        (analyze_batch ⟨false, false, [1, 3]⟩ [⟨3, "c"⟩, ⟨1, "a"⟩] 0 (.list [])) := by
  constructor
  · decide
  · decide

/-- Claim C9 (amended): an empty batch returns `[]`; a batch whose slides
are all exempt returns the placeholders in input order; otherwise the
result is the exempt placeholders merged with the rewrite-stage results
(an unparseable model response contributing nothing, never an exception)
and sorted in nondecreasing slide-number order. -/
theorem analyzeBatch_merge_sort_behaviour (cfg : BatchConfig)
    (slides_list : List BatchSlide) (total_slide_count : ℕ) (parsed : ParsedResponse) :
    (slides_list = [] → analyze_batch cfg slides_list total_slide_count parsed = []) ∧
      (slides_list ≠ [] →
        (filterExemptSlides cfg total_slide_count slides_list).1 = [] →
        analyze_batch cfg slides_list total_slide_count parsed =
          (filterExemptSlides cfg total_slide_count slides_list).2) ∧
      (slides_list ≠ [] →
        (filterExemptSlides cfg total_slide_count slides_list).1 ≠ [] →
        List.Pairwise (fun a b : BatchResult => a.slide_number ≤ b.slide_number)
            (analyze_batch cfg slides_list total_slide_count parsed) ∧
          (analyze_batch cfg slides_list total_slide_count parsed).Perm
            ((filterExemptSlides cfg total_slide_count slides_list).2 ++
              (match parsed with
                | .list rs => rs
                | .notList => []))) := by
  refine ⟨?_, ?_, ?_⟩
  · intro h
    unfold analyze_batch
    rw [if_pos h]
  · intro hne hact
    unfold analyze_batch
    rw [if_neg hne, if_pos hact]
  · intro hne hact
    unfold analyze_batch
    rw [if_neg hne, if_neg hact]
    constructor
    · have hs := @List.sorted_mergeSort BatchResult resultLe
        (fun a b c hab hbc => by
          simp only [resultLe, decide_eq_true_eq] at hab hbc ⊢
          omega)
        (fun a b => by
          simp only [resultLe]
          rcases Nat.le_total a.slide_number b.slide_number with h | h <;> simp [h])
        ((filterExemptSlides cfg total_slide_count slides_list).2 ++
          (match parsed with
            | .list rs => rs
            | .notList => []))
      exact hs.imp (fun h => by simpa [resultLe] using h)
    · exact List.mergeSort_perm _ _

/-- Witness for the amended C9: slide 1 exempt by the first-slide rule,
slide 2 active, with an unparseable rewrite response (sorted placeholders
only), plus an all-exempt out-of-order batch returned unsorted. -/
theorem analyzeBatch_merge_sort_behaviour_witness :
    ([⟨2, "b"⟩, ⟨1, "a"⟩] : List BatchSlide) ≠ [] ∧
      (filterExemptSlides ⟨true, false, []⟩ 0 [⟨2, "b"⟩, ⟨1, "a"⟩]).1 ≠ [] ∧
      (List.Pairwise (fun a b : BatchResult => a.slide_number ≤ b.slide_number)
          (analyze_batch ⟨true, false, []⟩ [⟨2, "b"⟩, ⟨1, "a"⟩] 0 .notList) ∧
        (analyze_batch ⟨true, false, []⟩ [⟨2, "b"⟩, ⟨1, "a"⟩] 0 .notList).Perm
          ((filterExemptSlides ⟨true, false, []⟩ 0 [⟨2, "b"⟩, ⟨1, "a"⟩]).2 ++
            (match (ParsedResponse.notList : ParsedResponse) with
              | .list rs => rs
              | .notList => []))) ∧
      analyze_batch ⟨false, false, [1, 2]⟩ [⟨2, "b"⟩, ⟨1, "a"⟩] 0 .notList =
        (filterExemptSlides ⟨false, false, [1, 2]⟩ 0 [⟨2, "b"⟩, ⟨1, "a"⟩]).2 :=
  ⟨by decide, by decide,
    (analyzeBatch_merge_sort_behaviour ⟨true, false, []⟩ [⟨2, "b"⟩, ⟨1, "a"⟩] 0
      .notList).2.2 (by decide) (by decide),
    (analyzeBatch_merge_sort_behaviour ⟨false, false, [1, 2]⟩ [⟨2, "b"⟩, ⟨1, "a"⟩] 0
      .notList).2.1 (by decide) (by decide)⟩
